import Mathlib

/-!
Verification of the Hyperstack cluster-autoscaler cloud-provider core.

Shallow embedding of the Go sources:
* `retry.go` — retrying HTTP client (`RetryConfig`, `calculateDelay`,
  `RetryableHTTPClient.Do`): durations are modelled in exact rational
  arithmetic (nanoseconds), the float computation of the source is modelled
  by the corresponding exact real-number computation; the stream of HTTP
  attempt outcomes is an explicit function from attempt index to outcome.
* `hyperstack_kubernetes.go` — metadata fetch (`GetMetadata`,
  `GetNodeLabel`): the HTTP fetch, body read and JSON decode are
  parameters; a Go `panic` is modelled by an explicit `panicked` result.
* the `CustomTime` JSON codec — byte strings are modelled as `List Char`,
  the `time.Time` value at second precision as an explicit
  year/month/day/hour/minute/second record.
* `hyperstack_manager.go` — `Manager.Refresh`: the label lookup and the
  three gateway calls are inputs (`RefreshInput`); the snapshot is the
  `Manager.nodeGroups` list.
* `hyperstack_node_group.go` — `NodeGroup.TargetSize`,
  `NodeGroup.IncreaseSize`, `NodeGroup.DeleteNodes`: cloud and Kubernetes
  side effects are inputs, issued calls are recorded in an explicit log.
-/

/-- Errors produced by the embedded Go code. Collaborator failures are
carried as `goErr`; the error constructors the core itself builds carry the
data interpolated into the Go error message. -/
inductive GoError where
  | goErr (msg : String)
  | atoiError (s : String)
  | reconciling
  | sizeIncreaseTooLarge (current desired max : Int)
  | missingNodeIdLabel (nodeName : String)
  deriving DecidableEq

/-- Source: `RetryConfig` in retry.go. Delays are rational nanoseconds. -/
structure RetryConfig where
  MaxRetries : Nat
  BaseDelay : ℚ
  MaxDelay : ℚ
  RetryableErrors : List Nat

/-- Source: `DefaultRetryConfig()` — 3 retries, 100ms base, 5s max. -/
def DefaultRetryConfig : RetryConfig :=
  { MaxRetries := 3
    BaseDelay := 100000000
    MaxDelay := 5000000000
    RetryableErrors := [429, 500, 502, 503, 504] }

/-- Source: `RetryConfig.isRetryableError` — membership in `RetryableErrors`. -/
def RetryConfig.isRetryableError (rc : RetryConfig) (statusCode : Nat) : Bool :=
  rc.RetryableErrors.contains statusCode

/-- Source: `RetryConfig.calculateDelay`. `U` is the drawn value of
`rand.Float64()`, so `0 ≤ U < 1` at every call. The float computation
`float64(BaseDelay) * 2^attempt`, the cap at `MaxDelay`, and the jitter
`delay * (0.5 + U) * 0.5` are modelled exactly over `ℚ`. -/
def RetryConfig.calculateDelay (rc : RetryConfig) (attempt : Nat) (U : ℚ) : ℚ :=
  (if rc.BaseDelay * 2 ^ attempt > rc.MaxDelay then rc.MaxDelay
   else rc.BaseDelay * 2 ^ attempt) * (1/2 + U) * (1/2)

/-- Outcome of one underlying `client.Do(req)` call: either a
transport-level error or a response, identified by its status code. -/
inductive HttpResult (ε : Type) where
  | transportError (e : ε)
  | response (status : Nat)
  deriving DecidableEq

/-- Return value of `RetryableHTTPClient.Do`. `ok a s` is `(resp, nil)`
where `resp` is the response obtained at attempt `a` with status `s`;
`err e` is `(nil, e)` for a transport error `e`; `ctxCancelled` is the
`req.Context().Done()` early return; `maxRetriesExceeded` is the
post-loop `fmt.Errorf("max retries exceeded: %v", lastErr)` path. -/
inductive DoReturn (ε : Type) where
  | ok (attempt : Nat) (status : Nat)
  | err (e : ε)
  | ctxCancelled
  | maxRetriesExceeded (last : Option ε)
  deriving DecidableEq

/-- Source: the `for attempt := 0; attempt <= MaxRetries; attempt++` loop
of `RetryableHTTPClient.Do`. `fuel` counts the loop iterations still
allowed by the loop condition (`MaxRetries + 1 - attempt`); `ctxDone i`
tells whether the request context is already done when attempt `i` is
about to start; `outcomes i` is the result of the underlying call at
attempt `i`. `lastErr`/`lastResp` mirror the two local variables. -/
def doLoop {ε : Type} (maxRetries : Nat) (isRetryable : Nat → Bool) (ctxDone : Nat → Bool)
    (outcomes : Nat → HttpResult ε) :
    Nat → Nat → Option ε → Option (Nat × Nat) → DoReturn ε
  | _, 0, lastErr, lastResp =>
    match lastResp with
    | some (a, s) => .ok a s
    | none => .maxRetriesExceeded lastErr
  | attempt, fuel + 1, lastErr, lastResp =>
    if ctxDone attempt then .ctxCancelled
    else
      match outcomes attempt with
      | .transportError e =>
        if attempt < maxRetries then
          doLoop maxRetries isRetryable ctxDone outcomes (attempt + 1) fuel (some e) lastResp
        else .err e
      | .response s =>
        if isRetryable s then
          if attempt < maxRetries then
            doLoop maxRetries isRetryable ctxDone outcomes (attempt + 1) fuel lastErr
              (some (attempt, s))
          else .ok attempt s
        else .ok attempt s

/-- Source: `RetryableHTTPClient.Do` — runs the retry loop from attempt 0. -/
def RetryableDo {ε : Type} (rc : RetryConfig) (ctxDone : Nat → Bool)
    (outcomes : Nat → HttpResult ε) : DoReturn ε :=
  doLoop rc.MaxRetries rc.isRetryableError ctxDone outcomes 0 (rc.MaxRetries + 1) none none

/-- Source: `Meta` in hyperstack_kubernetes.go. -/
structure MetaFields where
  cluster : String
  role : String
  infrahubKey : String
  deriving DecidableEq

/-- Source: `Key` in hyperstack_kubernetes.go. -/
structure KeyFields where
  name : String
  type : String
  data : String
  deriving DecidableEq

/-- Source: `Payload` in hyperstack_kubernetes.go (the `[]any` fields
`devices` and `dedicated_cpus` are opaque to the core and omitted). -/
structure Payload where
  uuid : String
  meta : MetaFields
  publicKeys : List (String × String)
  keys : List KeyFields
  hostname : String
  name : String
  launchIndex : Int
  az : String
  randomSeed : String
  projectId : String
  deriving DecidableEq

/-- Result of running a piece of Go code that may `panic`: either the
value it returns, or `panicked` — the process is terminating. -/
inductive ProcResult (α : Type) where
  | ok (a : α)
  | panicked
  deriving DecidableEq

/-- Source: `GetMetadata()` in hyperstack_kubernetes.go. The three
collaborator steps are inputs: `httpGet` is `http.Get(metadataURL)`,
`readAll` is `io.ReadAll(resp.Body)`, `unmarshal` is `json.Unmarshal`.
On each failure the source calls `panic(fmt.Errorf(...))`. -/
def GetMetadata {εh εr εu ρ : Type} (httpGet : Except εh ρ)
    (readAll : ρ → Except εr String)
    (unmarshal : String → Except εu Payload) : ProcResult Payload :=
  match httpGet with
  | .error _ => .panicked
  | .ok resp =>
    match readAll resp with
    | .error _ => .panicked
    | .ok body =>
      match unmarshal body with
      | .error _ => .panicked
      | .ok payload => .ok payload

/-- A Kubernetes `Node` object as the core sees it: a name and a label map
(modelled as an association list; `lookupLabel` is map indexing). -/
structure KNode where
  name : String
  labels : List (String × String)
  deriving DecidableEq

/-- Go map lookup `labels[key]` in comma-ok form. -/
def lookupLabel (labels : List (String × String)) (key : String) : Option String :=
  (labels.find? (fun p => p.1 == key)).map (fun p => p.2)

/-- Source: `GetNodeLabel(labelKey)` in hyperstack_kubernetes.go.
`inClusterConfig`, `newClient` and `getNode` stand for
`rest.InClusterConfig`, `kubernetes.NewForConfig` and
`clientset.CoreV1().Nodes().Get`; the metadata steps are passed through to
`GetMetadata`, whose panic propagates (there is no recover). -/
def GetNodeLabel {εh εr εu ρ κ χ ε1 ε2 ε3 : Type} (inClusterConfig : Except ε1 κ)
    (newClient : κ → Except ε2 χ)
    (httpGet : Except εh ρ) (readAll : ρ → Except εr String)
    (unmarshal : String → Except εu Payload)
    (getNode : χ → String → Except ε3 KNode)
    (labelKey : String) : ProcResult (Except GoError String) :=
  match inClusterConfig with
  | .error _ => .ok (.error (.goErr "failed to get in-cluster config"))
  | .ok config =>
    match newClient config with
    | .error _ => .ok (.error (.goErr "failed to create kubernetes client"))
    | .ok clientset =>
      match GetMetadata httpGet readAll unmarshal with
      | .panicked => .panicked
      | .ok payload =>
        match getNode clientset payload.name with
        | .error _ => .ok (.error (.goErr "failed to get node"))
        | .ok node =>
          match lookupLabel node.labels labelKey with
          | none => .ok (.error (.goErr "label not found on node"))
          | some value => .ok (.ok value)

/-- Source: `CustomTime` — a `time.Time` at the second precision of the
`"2006-01-02T15:04:05"` layout. -/
structure CustomTime where
  year : Nat
  month : Nat
  day : Nat
  hour : Nat
  minute : Nat
  second : Nat
  deriving DecidableEq

/-- The zero `time.Time`: January 1 of year 1, 00:00:00. -/
def zeroTime : CustomTime := ⟨1, 1, 1, 0, 0, 0⟩

/-- Gregorian leap-year rule, as used by Go `time`. -/
def isLeapYear (y : Nat) : Bool :=
  (y % 4 == 0 && y % 100 != 0) || y % 400 == 0

/-- Number of days in a month, as validated by Go `time.Parse`. -/
def daysInMonth (y m : Nat) : Nat :=
  if m == 2 then (if isLeapYear y then 29 else 28)
  else if m == 4 || m == 6 || m == 9 || m == 11 then 30
  else 31

/-- A `time.Time` value Go can hold and the layout can express: month,
day, hour, minute, second in range and a four-digit year. -/
def validTime (d : CustomTime) : Bool :=
  d.year ≤ 9999 && (1 ≤ d.month && d.month ≤ 12) &&
  (1 ≤ d.day && d.day ≤ daysInMonth d.year d.month) &&
  d.hour ≤ 23 && d.minute ≤ 59 && d.second ≤ 59

/-- Decimal digit character for `k ∈ [0, 9]`: ASCII code 48 + k. -/
def digitChar0 (k : Nat) : Char := Char.ofNat (48 + k)

/-- Character of decimal digit `n mod 10` — one position of a zero-padded
decimal rendering. -/
def dchar (n : Nat) : Char := digitChar0 (n % 10)

/-- Numeric value of a decimal digit character (ASCII byte minus 48, as
Go computes it). -/
def digitVal? (c : Char) : Option Nat :=
  if '0' ≤ c ∧ c ≤ '9' then some (c.toNat - 48) else none

/-- Two-digit zero-padded rendering (Go format verbs `01`, `02`, `15`,
`04`, `05`). -/
def pad2 (n : Nat) : List Char := [dchar (n / 10), dchar n]

/-- Four-digit zero-padded rendering (Go format verb `2006`). -/
def pad4 (n : Nat) : List Char :=
  [dchar (n / 1000), dchar (n / 100), dchar (n / 10), dchar n]

/-- Source: `ct.Time.Format(ctLayout)` with layout `2006-01-02T15:04:05`. -/
def ctFormat (d : CustomTime) : List Char :=
  pad4 d.year ++ '-' :: (pad2 d.month ++ '-' :: (pad2 d.day ++
    'T' :: (pad2 d.hour ++ ':' :: (pad2 d.minute ++ ':' :: pad2 d.second))))

/-- Source: `time.Parse(ctLayout, s)` restricted to this fixed layout:
nineteen characters, fixed separators, decimal fields, with Go's range
validation of month, day (month-length aware), hour, minute, second.
Returns `none` where Go returns a parse error. -/
def ctParse (cs : List Char) : Option CustomTime :=
  match cs with
  | [y1, y2, y3, y4, p1, mo1, mo2, p2, d1, d2, p3, h1, h2, p4, mi1, mi2, p5, se1, se2] =>
    if p1 == '-' && p2 == '-' && p3 == 'T' && p4 == ':' && p5 == ':' then
      match digitVal? y1, digitVal? y2, digitVal? y3, digitVal? y4,
            digitVal? mo1, digitVal? mo2, digitVal? d1, digitVal? d2,
            digitVal? h1, digitVal? h2, digitVal? mi1, digitVal? mi2,
            digitVal? se1, digitVal? se2 with
      | some a, some b, some c, some e,
        some f, some g, some h, some i,
        some j, some k, some l, some m,
        some n, some o =>
        let year := ((a * 10 + b) * 10 + c) * 10 + e
        let month := f * 10 + g
        let day := h * 10 + i
        let hour := j * 10 + k
        let minute := l * 10 + m
        let second := n * 10 + o
        if 1 ≤ month ∧ month ≤ 12 ∧ 1 ≤ day ∧ day ≤ daysInMonth year month ∧
           hour ≤ 23 ∧ minute ≤ 59 ∧ second ≤ 59 then
          some ⟨year, month, day, hour, minute, second⟩
        else none
      | _, _, _, _, _, _, _, _, _, _, _, _, _, _ => none
    else none
  | _ => none

/-- The four characters of the string `null`. -/
def nullChars : List Char := ['n', 'u', 'l', 'l']

/-- Source: `strings.Trim(s, "\x22")` — strip all leading and trailing
double-quote characters. -/
def trimQuotes (cs : List Char) : List Char :=
  ((cs.dropWhile (fun c => c == '"')).reverse.dropWhile (fun c => c == '"')).reverse

/-- Source: `CustomTime.MarshalJSON` — the formatted time wrapped in
double quotes. -/
def CustomTime.MarshalJSON (d : CustomTime) : List Char :=
  '"' :: ctFormat d ++ ['"']

/-- Source: `CustomTime.UnmarshalJSON` — trim quotes; the string `null`
yields the zero time; otherwise parse with the layout (`none` models the
parse error being returned). -/
def CustomTime.UnmarshalJSON (b : List Char) : Option CustomTime :=
  if trimQuotes b = nullChars then some zeroTime
  else ctParse (trimQuotes b)

/-- Source: `ClusterNodeGroupFields` of the SDK — the node-group record
fields the core reads (pointer fields modelled as their values). -/
structure ClusterNodeGroupFields where
  id : Int
  name : String
  role : String
  minCount : Int
  maxCount : Int
  count : Int
  deriving DecidableEq

/-- Source: `ClusterFields` of the SDK — the two fields `Refresh` reads. -/
structure ClusterFields where
  isReconciling : Bool
  status : String
  deriving DecidableEq

/-- Source: the `NodeGroup` struct (the `manager` back-reference is
a non-owning handle and is not part of the state; member nodes are kept
as their integer ids). `nodeGroup` is the embedded record whose `Count`
the scale operations mutate. -/
structure NodeGroup where
  id : Int
  minSize : Int
  maxSize : Int
  nodeGroup : ClusterNodeGroupFields
  nodes : List Int
  clusterId : Int
  status : String
  deriving DecidableEq

/-- Source: the `Manager` struct — the published snapshot. -/
structure Manager where
  nodeGroups : List NodeGroup
  deriving DecidableEq

/-- Source: `strconv.Atoi` — optional sign, then a nonempty run of
decimal digits; anything else is an error (`none`). -/
def digitsVal? (cs : List Char) : Option Nat :=
  cs.foldl
    (fun acc c =>
      match acc, digitVal? c with
      | some a, some d => some (a * 10 + d)
      | _, _ => none)
    (some 0)

/-- Source: `strconv.Atoi(s)` (overflow is not modelled: integers are
unbounded). -/
def Atoi (s : String) : Option Int :=
  match s.data with
  | [] => none
  | '-' :: rest =>
    if rest.isEmpty then none else (digitsVal? rest).map (fun n => -(n : Int))
  | '+' :: rest =>
    if rest.isEmpty then none else (digitsVal? rest).map (fun n => (n : Int))
  | cs => (digitsVal? cs).map (fun n => (n : Int))

/-- The collaborator results one call to `Manager.Refresh` consumes:
`label` is `GetNodeLabel(clusterIdLabel)`; `listNodeGroups` and
`getCluster` are the two gateway calls; `getNodes k` is the result of the
`k`-th `GetClusterNodesWithResponse` call issued inside the loop. -/
structure RefreshInput where
  label : Except GoError String
  listNodeGroups : Except GoError (List ClusterNodeGroupFields)
  getCluster : Except GoError ClusterFields
  getNodes : Nat → Except GoError (List Int)

/-- Source: the `for _, nodeGroup := range *nodeGroups` loop of
`Manager.Refresh`: skip records whose role is not `worker`, skip records
with `maxCount ≤ minCount`, fetch the cluster node list for each kept
record (`k` counts those calls), abort on a fetch error, and otherwise
append a `NodeGroup` handle. -/
def buildGroups (cid : Int) (status : String)
    (getNodes : Nat → Except GoError (List Int)) :
    List ClusterNodeGroupFields → Nat → Except GoError (List NodeGroup)
  | [], _ => .ok []
  | r :: rest, k =>
    if r.role ≠ "worker" then buildGroups cid status getNodes rest k
    else if r.maxCount ≤ r.minCount then buildGroups cid status getNodes rest k
    else
      match getNodes k with
      | .error e => .error e
      | .ok nodeIds =>
        match buildGroups cid status getNodes rest (k + 1) with
        | .error e => .error e
        | .ok gs =>
          .ok ({ id := r.id, minSize := r.minCount, maxSize := r.maxCount,
                 nodeGroup := r, nodes := nodeIds, clusterId := cid,
                 status := status } :: gs)

/-- Source: `Manager.Refresh()`. Returns the manager after the call and
the returned error (`none` = nil). Every early `return err` leaves
`m.nodeGroups` untouched; only the final `m.nodeGroups = group`
assignment replaces the snapshot. -/
def Manager.Refresh (m : Manager) (inp : RefreshInput) : Manager × Option GoError :=
  match inp.label with
  | .error e => (m, some e)
  | .ok clusterId =>
    match Atoi clusterId with
    | none => (m, some (.atoiError clusterId))
    | some clusterIdInt =>
      match inp.listNodeGroups with
      | .error e => (m, some e)
      | .ok nodeGroups =>
        match inp.getCluster with
        | .error e => (m, some e)
        | .ok cluster =>
          if cluster.isReconciling then (m, some .reconciling)
          else
            match buildGroups clusterIdInt cluster.status inp.getNodes nodeGroups 0 with
            | .error e => (m, some e)
            | .ok group => ({ nodeGroups := group }, none)

/-- Source: `NodeGroup.TargetSize()` — returns `*n.nodeGroup.Count`. -/
def NodeGroup.TargetSize (n : NodeGroup) : Int := n.nodeGroup.count

/-- Source: `NodeGroup.MaxSize()`. -/
def NodeGroup.MaxSize (n : NodeGroup) : Int := n.maxSize

/-- Source: `NodeGroup.MinSize()`. -/
def NodeGroup.MinSize (n : NodeGroup) : Int := n.minSize

/-- Source: `NodeGroup.IncreaseSize(delta)`. `createNode` is the outcome
of `CreateNodeWithResponse`. The bound check compares
`count + delta > MaxSize()` and the error carries current, desired and
max; on API success the local count becomes the target size. -/
def NodeGroup.IncreaseSize (n : NodeGroup) (delta : Int)
    (createNode : Except GoError Unit) : Except GoError NodeGroup :=
  if n.nodeGroup.count + delta > n.MaxSize then
    .error (.sizeIncreaseTooLarge n.nodeGroup.count (n.nodeGroup.count + delta) n.MaxSize)
  else
    match createNode with
    | .error e => .error e
    | .ok _ =>
      .ok { n with nodeGroup := { n.nodeGroup with count := n.nodeGroup.count + delta } }

/-- Label key `hyperstack.cloud/node-id`. -/
def nodeIdLabel : String := "hyperstack.cloud/node-id"

/-- Label key `node-role.kubernetes.io/worker`. -/
def nodeRoleLabel : String := "node-role.kubernetes.io/worker"

/-- Label key `hyperstack.cloud/cluster-id`. -/
def clusterIdLabel : String := "hyperstack.cloud/cluster-id"

/-- An outbound side effect issued by `DeleteNodes`, in order. -/
inductive ApiCall where
  | deleteClusterNodes (clusterId : Int) (ids : List Int)
  | deleteNodeObjects (names : List String)
  deriving DecidableEq

/-- What a `DeleteNodes` call produced: the returned error (`none` =
nil), the group state after the call, and the log of issued calls. -/
structure DeleteResult where
  err : Option GoError
  group : NodeGroup
  calls : List ApiCall
  deriving DecidableEq

/-- Source: the candidate loop of `NodeGroup.DeleteNodes`: a node without
the `hyperstack.cloud/node-id` label is an error; a node whose worker
role label is not `worker` is skipped; a non-integer node id is an
error; otherwise the id and the node name are collected in order. -/
def collectDeleteTargets : List KNode → Except GoError (List Int × List String)
  | [] => .ok ([], [])
  | node :: rest =>
    match lookupLabel node.labels nodeIdLabel with
    | none => .error (.missingNodeIdLabel node.name)
    | some nodeID =>
      let nodeRole := (lookupLabel node.labels nodeRoleLabel).getD ""
      if nodeRole ≠ "worker" then collectDeleteTargets rest
      else
        match Atoi nodeID with
        | none => .error (.atoiError nodeID)
        | some nodeIDInt =>
          match collectDeleteTargets rest with
          | .error e => .error e
          | .ok (ids, names) => .ok (nodeIDInt :: ids, node.name :: names)

/-- Source: `NodeGroup.DeleteNodes(nodes)`. `managerGroups` is
`n.manager.nodeGroups`; `deleteClusterNodes` and `deleteNodeObject` are
the outcomes of `DeleteClusterNodesWithResponse` and `DeleteNodeObject`.
An empty snapshot returns nil immediately; otherwise the targets are
collected, the bulk cloud delete is issued, the local count is
decremented by the number of submitted ids, and the Kubernetes `Node`
objects are deleted. -/
def NodeGroup.DeleteNodes (n : NodeGroup) (managerGroups : List NodeGroup)
    (nodes : List KNode)
    (deleteClusterNodes : List Int → Except GoError Unit)
    (deleteNodeObject : List String → Except GoError Unit) : DeleteResult :=
  if managerGroups.length = 0 then { err := none, group := n, calls := [] }
  else
    match collectDeleteTargets nodes with
    | .error e => { err := some e, group := n, calls := [] }
    | .ok (ids, names) =>
      match deleteClusterNodes ids with
      | .error e =>
        { err := some e, group := n, calls := [.deleteClusterNodes n.clusterId ids] }
      | .ok _ =>
        let n2 : NodeGroup :=
          { n with nodeGroup := { n.nodeGroup with count := n.nodeGroup.count - ids.length } }
        match deleteNodeObject names with
        | .error e =>
          { err := some e, group := n2,
            calls := [.deleteClusterNodes n.clusterId ids, .deleteNodeObjects names] }
        | .ok _ =>
          { err := none, group := n2,
            calls := [.deleteClusterNodes n.clusterId ids, .deleteNodeObjects names] }

/-! Concrete inputs used by counterexamples and witnesses. -/

/-- A node-group record whose cloud-reported count (10) lies outside its
own bounds [1, 5]. -/
def c1Record : ClusterNodeGroupFields :=
  { id := 1, name := "group-a", role := "worker", minCount := 1, maxCount := 5, count := 10 }

/-- Refresh input publishing `c1Record` from a healthy cluster. -/
def c1Input : RefreshInput :=
  { label := .ok "7", listNodeGroups := .ok [c1Record],
    getCluster := .ok { isReconciling := false, status := "ACTIVE" },
    getNodes := fun _ => .ok [] }

/-- The group handle `Refresh` publishes for `c1Record`. -/
def c1Group : NodeGroup :=
  { id := 1, minSize := 1, maxSize := 5, nodeGroup := c1Record, nodes := [],
    clusterId := 7, status := "ACTIVE" }

/-- A node-group record whose count (3) lies inside its bounds [1, 5]. -/
def c1wRecord : ClusterNodeGroupFields :=
  { id := 2, name := "group-b", role := "worker", minCount := 1, maxCount := 5, count := 3 }

/-- Refresh input publishing `c1wRecord`. -/
def c1wInput : RefreshInput :=
  { label := .ok "7", listNodeGroups := .ok [c1wRecord],
    getCluster := .ok { isReconciling := false, status := "ACTIVE" },
    getNodes := fun _ => .ok [100, 200] }

/-- The group handle `Refresh` publishes for `c1wRecord`. -/
def c1wGroup : NodeGroup :=
  { id := 2, minSize := 1, maxSize := 5, nodeGroup := c1wRecord, nodes := [100, 200],
    clusterId := 7, status := "ACTIVE" }

/-- A group with bounds [1, 5] and current count 2. -/
def c3Group : NodeGroup :=
  { id := 10, minSize := 1, maxSize := 5,
    nodeGroup := { id := 10, name := "group-a", role := "worker",
                   minCount := 1, maxCount := 5, count := 2 },
    nodes := [], clusterId := 123, status := "ACTIVE" }

/-- A group with bounds [1, 5] and current count 4. -/
def c3wGroup : NodeGroup :=
  { id := 10, minSize := 1, maxSize := 5,
    nodeGroup := { id := 10, name := "group-a", role := "worker",
                   minCount := 1, maxCount := 5, count := 4 },
    nodes := [], clusterId := 123, status := "ACTIVE" }

/-- Attempt outcomes: retryable 500s, then a retryable 503 at the final
attempt of the default configuration. -/
def c4Responses : Nat → HttpResult Unit :=
  fun i => if i < 3 then .response 500 else .response 503

/-- Attempt outcomes: every attempt fails at transport level. -/
def c4Failures : Nat → HttpResult Unit := fun _ => .transportError ()

/-- An eligible worker record with count 2 inside bounds [0, 4]. -/
def c6Record : ClusterNodeGroupFields :=
  { id := 3, name := "group-c", role := "worker", minCount := 0, maxCount := 4, count := 2 }

/-- Refresh input mixing an ineligible master group, an eligible worker
group and a worker group with degenerate bounds. -/
def c6Input : RefreshInput :=
  { label := .ok "42",
    listNodeGroups := .ok
      [ { id := 4, name := "cp", role := "master", minCount := 0, maxCount := 4, count := 1 },
        c6Record,
        { id := 5, name := "bad", role := "worker", minCount := 3, maxCount := 3, count := 3 } ],
    getCluster := .ok { isReconciling := false, status := "ACTIVE" },
    getNodes := fun _ => .ok [9] }

/-- The single group handle `Refresh` publishes for `c6Input`. -/
def c6Group : NodeGroup :=
  { id := 3, minSize := 0, maxSize := 4, nodeGroup := c6Record, nodes := [9],
    clusterId := 42, status := "ACTIVE" }

/-- A previously published snapshot of one group. -/
def c7Manager : Manager :=
  { nodeGroups :=
      [ { id := 1, minSize := 1, maxSize := 5,
          nodeGroup := { id := 1, name := "g", role := "worker",
                         minCount := 1, maxCount := 5, count := 2 },
          nodes := [], clusterId := 7, status := "ACTIVE" } ] }

/-- Refresh input for a cluster that reports it is reconciling. -/
def c7ReconInput : RefreshInput :=
  { label := .ok "7", listNodeGroups := .ok [],
    getCluster := .ok { isReconciling := true, status := "RECONCILING" },
    getNodes := fun _ => .ok [] }

/-- February 29 of a leap year, one second before midnight. -/
def c9Sample : CustomTime := ⟨2024, 2, 29, 23, 59, 59⟩

/-- A node that lacks the node-id label and is not a worker. -/
def c10NoLabelNode : KNode := ⟨"n1", [(nodeRoleLabel, "control-plane")]⟩

/-- A node that carries the node-id label but is not a worker. -/
def c10NonWorkerNode : KNode :=
  ⟨"n2", [(nodeIdLabel, "33"), (nodeRoleLabel, "control-plane")]⟩

/-- A group with count 3 used by the DeleteNodes witnesses. -/
def c10Group : NodeGroup :=
  { id := 10, minSize := 1, maxSize := 5,
    nodeGroup := { id := 10, name := "g", role := "worker",
                   minCount := 1, maxCount := 5, count := 3 },
    nodes := [], clusterId := 123, status := "ACTIVE" }

/-! Theorems. -/

/-- The capped delay of `calculateDelay` is the minimum of the
exponential delay and `MaxDelay`. -/
theorem calculateDelay_eq (rc : RetryConfig) (attempt : Nat) (U : ℚ) :
    rc.calculateDelay attempt U =
      min (rc.BaseDelay * 2 ^ attempt) rc.MaxDelay * (1/2 + U) * (1/2) := by
  unfold RetryConfig.calculateDelay
  rcases le_or_lt (rc.BaseDelay * 2 ^ attempt) rc.MaxDelay with h | h
  · rw [if_neg (not_lt.mpr h), min_eq_left h]
  · rw [if_pos h, min_eq_right h.le]

/-- Claim C2, as stated, is false: at attempt 0 under the default
configuration, the drawn value U = 1/2 produces a delay equal to
0.5·base, which is outside the claimed half-open interval
[0.25·base, 0.5·base). -/
theorem c2_calculateDelay_counterexample :
    (0:ℚ) ≤ 1/2 ∧ (1/2:ℚ) < 1 ∧
    DefaultRetryConfig.calculateDelay 0 (1/2) =
      1/2 * min (DefaultRetryConfig.BaseDelay * 2 ^ (0:ℕ)) DefaultRetryConfig.MaxDelay ∧
    ¬ (DefaultRetryConfig.calculateDelay 0 (1/2) <
        1/2 * min (DefaultRetryConfig.BaseDelay * 2 ^ (0:ℕ)) DefaultRetryConfig.MaxDelay) := by
  refine ⟨by norm_num, by norm_num, ?_, ?_⟩ <;>
    norm_num [RetryConfig.calculateDelay, DefaultRetryConfig]

/-- Claim C2 (amended): for every attempt n and every drawn uniform value
U ∈ [0,1), `calculateDelay` returns a delay in the half-open interval
[0.25·base, 0.75·base), where base = min(BaseDelay · 2ⁿ, MaxDelay),
provided BaseDelay and MaxDelay are positive (they are by default). -/
theorem c2_calculateDelay_range (rc : RetryConfig) (n : Nat) (U : ℚ)
    (hB : 0 < rc.BaseDelay) (hM : 0 < rc.MaxDelay) (hU0 : 0 ≤ U) (hU1 : U < 1) :
    min (rc.BaseDelay * 2 ^ n) rc.MaxDelay / 4 ≤ rc.calculateDelay n U ∧
    rc.calculateDelay n U < 3 / 4 * min (rc.BaseDelay * 2 ^ n) rc.MaxDelay := by
  rw [calculateDelay_eq]
  have hbase : (0:ℚ) < min (rc.BaseDelay * 2 ^ n) rc.MaxDelay := by positivity
  constructor
  · nlinarith [hbase, hU0]
  · nlinarith [hbase, hU1]

/-- Witness for C2 (amended) at the default configuration, attempt 1,
U = 1/3. -/
theorem c2_calculateDelay_range_witness :
    min (DefaultRetryConfig.BaseDelay * 2 ^ (1:ℕ)) DefaultRetryConfig.MaxDelay / 4 ≤
      DefaultRetryConfig.calculateDelay 1 (1/3) ∧
    DefaultRetryConfig.calculateDelay 1 (1/3) <
      3 / 4 * min (DefaultRetryConfig.BaseDelay * 2 ^ (1:ℕ)) DefaultRetryConfig.MaxDelay :=
  c2_calculateDelay_range DefaultRetryConfig 1 (1/3)
    (by norm_num [DefaultRetryConfig]) (by norm_num [DefaultRetryConfig])
    (by norm_num) (by norm_num)

/-- Claim C3, as stated, is false: `IncreaseSize(-1)` on a group with
count 2 and max 5 succeeds (the code never checks `delta > 0`), although
the claim requires success only when the delta is positive. -/
theorem c3_increaseSize_counterexample :
    NodeGroup.IncreaseSize c3Group (-1) (.ok ()) =
      .ok { c3Group with nodeGroup := { c3Group.nodeGroup with count := 1 } } ∧
    ¬ ((-1:Int) > 0) := by
  constructor
  · rfl
  · decide

/-- Claim C3 (amended): `IncreaseSize(d)` succeeds iff
`count + d ≤ MaxSize()` and the CreateNodes call succeeds — positivity of
`d` is NOT checked; on a bounds failure it returns the descriptive error
naming current, desired and max; on success `TargetSize()` returns
`count + d` (until the next Refresh replaces the group). -/
theorem c3_increaseSize_spec (n : NodeGroup) (delta : Int) (api : Except GoError Unit) :
    ((∃ n2, n.IncreaseSize delta api = .ok n2) ↔
      (n.nodeGroup.count + delta ≤ n.MaxSize ∧ api = .ok ())) ∧
    (n.MaxSize < n.nodeGroup.count + delta →
      n.IncreaseSize delta api =
        .error (.sizeIncreaseTooLarge n.nodeGroup.count (n.nodeGroup.count + delta) n.MaxSize)) ∧
    (∀ n2, n.IncreaseSize delta api = .ok n2 → n2.TargetSize = n.nodeGroup.count + delta) := by
  have heq : n.IncreaseSize delta api =
      if n.nodeGroup.count + delta > n.MaxSize then
        .error (.sizeIncreaseTooLarge n.nodeGroup.count (n.nodeGroup.count + delta) n.MaxSize)
      else
        match api with
        | .error e => .error e
        | .ok _ =>
          .ok { n with nodeGroup := { n.nodeGroup with count := n.nodeGroup.count + delta } } :=
    rfl
  by_cases h : n.nodeGroup.count + delta > n.MaxSize
  · refine ⟨?_, fun _ => by rw [heq, if_pos h], ?_⟩
    · rw [heq, if_pos h]
      constructor
      · rintro ⟨n2, hn2⟩; exact absurd hn2 (by simp)
      · rintro ⟨hle, _⟩; omega
    · intro n2 hn2
      rw [heq, if_pos h] at hn2
      exact absurd hn2 (by simp)
  · have hle : n.nodeGroup.count + delta ≤ n.MaxSize := not_lt.mp h
    rcases api with e | u
    · refine ⟨?_, fun hlt => absurd hlt h, ?_⟩
      · rw [heq, if_neg h]
        simp
      · intro n2 hn2
        rw [heq, if_neg h] at hn2
        exact absurd hn2 (by simp)
    · refine ⟨?_, fun hlt => absurd hlt h, ?_⟩
      · rw [heq, if_neg h]
        simp [hle]
      · intro n2 hn2
        rw [heq, if_neg h] at hn2
        simp only [Except.ok.injEq] at hn2
        subst hn2
        rfl

/-- Witness for C3 (amended): a bounds violation (count 4, delta 5,
max 5) yields the descriptive error, and a legal call (count 2, delta 2)
succeeds. -/
theorem c3_increaseSize_spec_witness :
    NodeGroup.IncreaseSize c3wGroup 5 (.ok ()) =
      .error (.sizeIncreaseTooLarge c3wGroup.nodeGroup.count
        (c3wGroup.nodeGroup.count + 5) c3wGroup.MaxSize) ∧
    (∃ n2, NodeGroup.IncreaseSize c3Group 2 (.ok ()) = .ok n2) :=
  ⟨(c3_increaseSize_spec c3wGroup 5 (.ok ())).2.1 (by norm_num [c3wGroup, NodeGroup.MaxSize]),
   (c3_increaseSize_spec c3Group 2 (.ok ())).1.mpr
     ⟨by norm_num [c3Group, NodeGroup.MaxSize], rfl⟩⟩

/-- Claim C5: the code is wrong — a metadata fetch, read, or decode
failure makes `GetMetadata` call Go `panic`, terminating the process, and
the panic propagates through `GetNodeLabel` (no recover). The claim and
the spec require an error return instead. -/
theorem c5_metadata_failure_panics {εr εu ρ : Type}
    (readAll : ρ → Except εr String) (unmarshal : String → Except εu Payload)
    (getNode : Unit → String → Except Unit KNode) (labelKey : String) (body : String) :
    @GetMetadata Unit εr εu ρ (Except.error ()) readAll unmarshal = .panicked ∧
    @GetMetadata Unit Unit Unit Unit (Except.ok ()) (fun _ => Except.ok body)
      (fun _ => Except.error ()) = .panicked ∧
    @GetNodeLabel Unit εr εu ρ Unit Unit Unit Unit Unit (Except.ok ())
      (fun _ => Except.ok ()) (Except.error ()) readAll unmarshal getNode labelKey =
      .panicked :=
  ⟨rfl, rfl, rfl⟩

/-- Claim C8: with an empty Manager snapshot, `DeleteNodes` returns nil
for any input, issues no cloud or Kubernetes call, and leaves the group
(in particular its count) unchanged. -/
theorem c8_deleteNodes_empty_snapshot (n : NodeGroup) (nodes : List KNode)
    (deleteApi : List Int → Except GoError Unit)
    (k8sDelete : List String → Except GoError Unit) :
    NodeGroup.DeleteNodes n [] nodes deleteApi k8sDelete =
      { err := none, group := n, calls := [] } := rfl

/-- If every attempt before the last is retried (transport error or
retryable status) and the context never fires, the retry loop runs to the
final attempt, whose outcome determines the return value: its response is
returned with nil error, its transport error is returned as the error. -/
theorem doLoop_exhaust {ε : Type} (maxRetries : Nat) (isR : Nat → Bool)
    (outcomes : Nat → HttpResult ε)
    (h1 : ∀ i, i < maxRetries →
      (match outcomes i with
       | .transportError _ => True
       | .response s => isR s = true)) :
    ∀ fuel attempt lastErr lastResp, attempt + fuel = maxRetries + 1 → attempt ≤ maxRetries →
      doLoop maxRetries isR (fun _ => false) outcomes attempt fuel lastErr lastResp =
        (match outcomes maxRetries with
         | .transportError e => .err e
         | .response s => .ok maxRetries s) := by
  intro fuel
  induction fuel with
  | zero => intro attempt lastErr lastResp hsum hle; omega
  | succ f ih =>
    intro attempt lastErr lastResp hsum hle
    rcases Nat.lt_or_ge attempt maxRetries with hlt | hge
    · have h2 := h1 attempt hlt
      rcases hout : outcomes attempt with e | s
      · simp only [doLoop, Bool.false_eq_true, if_false, hout, if_pos hlt]
        exact ih (attempt + 1) (some e) lastResp (by omega) (by omega)
      · rw [hout] at h2
        simp only [doLoop, Bool.false_eq_true, if_false, hout, h2, if_pos hlt, if_true]
        exact ih (attempt + 1) lastErr (some (attempt, s)) (by omega) (by omega)
    · have heq : attempt = maxRetries := le_antisymm hle hge
      subst heq
      rcases hout : outcomes attempt with e | s
      · simp [doLoop, hout]
      · rcases hr : isR s with _ | _ <;> simp [doLoop, hout, hr]

/-- Claim C4: after exhausting all MaxRetries+1 attempts (every earlier
attempt was retried, the context never fired), `Do` returns the final
attempt's response with a nil error when that attempt produced a
retryable status; and when the final attempt failed at transport level
and no attempt ever produced a response, it returns the error carrying
the last transport error. -/
theorem c4_do_exhausted {ε : Type} (rc : RetryConfig) (outcomes : Nat → HttpResult ε)
    (h1 : ∀ i, i < rc.MaxRetries →
      (match outcomes i with
       | .transportError _ => True
       | .response s => rc.isRetryableError s = true)) :
    (∀ s, outcomes rc.MaxRetries = .response s → rc.isRetryableError s = true →
      RetryableDo rc (fun _ => false) outcomes = .ok rc.MaxRetries s) ∧
    (∀ e, outcomes rc.MaxRetries = .transportError e →
      (∀ i, i ≤ rc.MaxRetries → ∃ e2, outcomes i = .transportError e2) →
      RetryableDo rc (fun _ => false) outcomes = .err e) := by
  have key := doLoop_exhaust rc.MaxRetries rc.isRetryableError outcomes h1
    (rc.MaxRetries + 1) 0 none none (by omega) (by omega)
  constructor
  · intro s hs _
    unfold RetryableDo
    rw [key, hs]
  · intro e he _
    unfold RetryableDo
    rw [key, he]

/-- Witness for C4: under the default configuration, three retryable 500s
followed by a final 503 yield the 503 response at attempt 3 with nil
error; four transport failures yield the last transport error. -/
theorem c4_do_exhausted_witness :
    RetryableDo DefaultRetryConfig (fun _ => false) c4Responses = .ok 3 503 ∧
    RetryableDo DefaultRetryConfig (fun _ => false) c4Failures = .err () := by
  constructor
  · exact (c4_do_exhausted DefaultRetryConfig c4Responses
      (by intro i hi; simp only [c4Responses, if_pos (show i < 3 from hi)]; decide)).1
      503 (by decide) (by decide)
  · exact (c4_do_exhausted DefaultRetryConfig c4Failures
      (by intro i _; simp [c4Failures])).2
      () rfl (by intro i _; exact ⟨(), rfl⟩)

/-- Claim C10: inside `DeleteNodes` (non-empty snapshot) the node-id
label presence check precedes the worker-role check — a node lacking the
node-id label fails the whole call with the missing-label error whatever
its role, while a node that has the label but is not a worker is silently
skipped. -/
theorem c10_deleteNodes_label_before_role (n : NodeGroup) (mgr : List NodeGroup)
    (node : KNode) (rest : List KNode)
    (deleteApi : List Int → Except GoError Unit)
    (k8sDelete : List String → Except GoError Unit)
    (hmgr : mgr.length ≠ 0) :
    (lookupLabel node.labels nodeIdLabel = none →
      NodeGroup.DeleteNodes n mgr (node :: rest) deleteApi k8sDelete =
        { err := some (.missingNodeIdLabel node.name), group := n, calls := [] }) ∧
    (∀ s, lookupLabel node.labels nodeIdLabel = some s →
      (lookupLabel node.labels nodeRoleLabel).getD "" ≠ "worker" →
      NodeGroup.DeleteNodes n mgr (node :: rest) deleteApi k8sDelete =
        NodeGroup.DeleteNodes n mgr rest deleteApi k8sDelete) := by
  constructor
  · intro hnone
    unfold NodeGroup.DeleteNodes
    rw [if_neg hmgr]
    simp [collectDeleteTargets, hnone]
  · intro s hs hrole
    have hskip : collectDeleteTargets (node :: rest) = collectDeleteTargets rest := by
      simp only [collectDeleteTargets, hs]
      rw [if_pos hrole]
    unfold NodeGroup.DeleteNodes
    rw [hskip]

/-- Witness for C10: with a one-group snapshot, a control-plane node
without the node-id label makes `DeleteNodes` fail with the missing-label
error, while a control-plane node carrying the label is skipped — the
call degenerates to the empty candidate list. -/
theorem c10_deleteNodes_label_before_role_witness :
    NodeGroup.DeleteNodes c10Group [c10Group] [c10NoLabelNode]
        (fun _ => .ok ()) (fun _ => .ok ()) =
      { err := some (.missingNodeIdLabel c10NoLabelNode.name), group := c10Group,
        calls := [] } ∧
    NodeGroup.DeleteNodes c10Group [c10Group] [c10NonWorkerNode]
        (fun _ => .ok ()) (fun _ => .ok ()) =
      NodeGroup.DeleteNodes c10Group [c10Group] []
        (fun _ => .ok ()) (fun _ => .ok ()) :=
  ⟨(c10_deleteNodes_label_before_role c10Group [c10Group] c10NoLabelNode []
      (fun _ => .ok ()) (fun _ => .ok ()) (by decide)).1 (by decide),
   (c10_deleteNodes_label_before_role c10Group [c10Group] c10NonWorkerNode []
      (fun _ => .ok ()) (fun _ => .ok ()) (by decide)).2 "33" (by decide) (by decide)⟩

/-- Every group built by the refresh loop stems from a record of the
input list that passed both filters, and copies that record's bounds,
count (via the embedded record), cluster id and status. -/
theorem buildGroups_mem (cid : Int) (status : String)
    (getNodes : Nat → Except GoError (List Int)) :
    ∀ (recs : List ClusterNodeGroupFields) (k : Nat) (gs : List NodeGroup),
      buildGroups cid status getNodes recs k = .ok gs →
      ∀ g ∈ gs, ∃ r ∈ recs, g.minSize = r.minCount ∧ g.maxSize = r.maxCount ∧
        g.nodeGroup = r ∧ r.role = "worker" ∧ r.minCount < r.maxCount ∧
        g.clusterId = cid ∧ g.status = status := by
  intro recs
  induction recs with
  | nil =>
    intro k gs h g hg
    simp only [buildGroups, Except.ok.injEq] at h
    subst h
    simp at hg
  | cons r rest ih =>
    intro k gs h g hg
    have heqn : buildGroups cid status getNodes (r :: rest) k =
        (if r.role ≠ "worker" then buildGroups cid status getNodes rest k
         else if r.maxCount ≤ r.minCount then buildGroups cid status getNodes rest k
         else
           match getNodes k with
           | .error e => .error e
           | .ok nodeIds =>
             match buildGroups cid status getNodes rest (k + 1) with
             | .error e => .error e
             | .ok gs2 =>
               .ok ({ id := r.id, minSize := r.minCount, maxSize := r.maxCount,
                      nodeGroup := r, nodes := nodeIds, clusterId := cid,
                      status := status } :: gs2)) := rfl
    rw [heqn] at h
    by_cases hrole : r.role ≠ "worker"
    · rw [if_pos hrole] at h
      obtain ⟨r2, hr2, hprops⟩ := ih k gs h g hg
      exact ⟨r2, List.mem_cons_of_mem _ hr2, hprops⟩
    · rw [if_neg hrole] at h
      push_neg at hrole
      by_cases hcnt : r.maxCount ≤ r.minCount
      · rw [if_pos hcnt] at h
        obtain ⟨r2, hr2, hprops⟩ := ih k gs h g hg
        exact ⟨r2, List.mem_cons_of_mem _ hr2, hprops⟩
      · rw [if_neg hcnt] at h
        rcases hres : getNodes k with e | ids <;> rw [hres] at h
        · exact absurd h (by simp)
        · rcases hb : buildGroups cid status getNodes rest (k + 1) with e2 | gs2 <;>
            rw [hb] at h
          · exact absurd h (by simp)
          · simp only [Except.ok.injEq] at h
            subst h
            rcases List.mem_cons.mp hg with hgh | hgt
            · subst hgh
              exact ⟨r, List.mem_cons_self _ _, rfl, rfl, rfl, hrole, not_le.mp hcnt,
                rfl, rfl⟩
            · obtain ⟨r2, hr2, hprops⟩ := ih (k + 1) gs2 hb g hgt
              exact ⟨r2, List.mem_cons_of_mem _ hr2, hprops⟩

/-- If some record is an eligible worker group and every cluster-node
fetch fails, the refresh loop aborts with an error. -/
theorem buildGroups_err_of_all_err (cid : Int) (status : String)
    (getNodes : Nat → Except GoError (List Int))
    (hall : ∀ k, ∃ e, getNodes k = .error e) :
    ∀ (recs : List ClusterNodeGroupFields) (k : Nat),
      (∃ r ∈ recs, r.role = "worker" ∧ r.minCount < r.maxCount) →
      ∃ e, buildGroups cid status getNodes recs k = .error e := by
  intro recs
  induction recs with
  | nil => intro k h; simp at h
  | cons r rest ih =>
    intro k hel
    have heqn : buildGroups cid status getNodes (r :: rest) k =
        (if r.role ≠ "worker" then buildGroups cid status getNodes rest k
         else if r.maxCount ≤ r.minCount then buildGroups cid status getNodes rest k
         else
           match getNodes k with
           | .error e => .error e
           | .ok nodeIds =>
             match buildGroups cid status getNodes rest (k + 1) with
             | .error e => .error e
             | .ok gs2 =>
               .ok ({ id := r.id, minSize := r.minCount, maxSize := r.maxCount,
                      nodeGroup := r, nodes := nodeIds, clusterId := cid,
                      status := status } :: gs2)) := rfl
    by_cases hrole : r.role ≠ "worker"
    · obtain ⟨r2, hr2, hw, hc⟩ := hel
      rcases List.mem_cons.mp hr2 with hrh | hrt
      · subst hrh; exact absurd hw hrole
      · obtain ⟨e, he⟩ := ih k ⟨r2, hrt, hw, hc⟩
        exact ⟨e, by rw [heqn, if_pos hrole]; exact he⟩
    · by_cases hcnt : r.maxCount ≤ r.minCount
      · obtain ⟨r2, hr2, hw, hc⟩ := hel
        rcases List.mem_cons.mp hr2 with hrh | hrt
        · subst hrh; omega
        · obtain ⟨e, he⟩ := ih k ⟨r2, hrt, hw, hc⟩
          exact ⟨e, by rw [heqn, if_neg hrole, if_pos hcnt]; exact he⟩
      · obtain ⟨e, hge⟩ := hall k
        exact ⟨e, by rw [heqn, if_neg hrole, if_neg hcnt, hge]⟩

/-- A successful `Refresh` went through the whole pipeline: the gateway
calls succeeded and the loop produced exactly the published snapshot. -/
theorem refresh_ok_inv (m : Manager) (inp : RefreshInput) (m2 : Manager)
    (hok : Manager.Refresh m inp = (m2, none)) :
    ∃ recs cid cluster, inp.listNodeGroups = .ok recs ∧ inp.getCluster = .ok cluster ∧
      buildGroups cid cluster.status inp.getNodes recs 0 = .ok m2.nodeGroups := by
  unfold Manager.Refresh at hok
  split at hok
  · simp at hok
  · split at hok
    · simp at hok
    · split at hok
      · simp at hok
      · split at hok
        · simp at hok
        · split at hok
          · simp at hok
          · split at hok
            · simp at hok
            · rename_i heqAtoi lsc recsv heqList clsc cluv heqClu hnr bgsc gsv heqBg
              simp only [Prod.mk.injEq] at hok
              obtain ⟨hm2, -⟩ := hok
              subst hm2
              exact ⟨recsv, _, cluv, heqList, heqClu, heqBg⟩

/-- Whenever `Refresh` returns a non-nil error, the previously published
snapshot is left unchanged. -/
theorem refresh_err_preserves (m : Manager) (inp : RefreshInput) :
    (Manager.Refresh m inp).2.isSome = true → (Manager.Refresh m inp).1 = m := by
  unfold Manager.Refresh
  repeat' split
  all_goals intro h2
  all_goals first | rfl | simp at h2

/-- Claim C1, as stated, is false: `Refresh` never checks the record's
count against the bounds, so a record with count 10 and bounds [1, 5] is
published unchanged — the refresh succeeds and the published group has
count outside [minSize, maxSize]. -/
theorem c1_refresh_bounds_counterexample :
    Manager.Refresh { nodeGroups := [] } c1Input = ({ nodeGroups := [c1Group] }, none) ∧
    ¬ (c1Group.MinSize ≤ c1Group.TargetSize ∧ c1Group.TargetSize ≤ c1Group.MaxSize) := by
  constructor
  · rfl
  · decide

/-- Claim C1 (amended): a group published by a successful `Refresh`
carries the record's count verbatim, so `minSize ≤ count ≤ maxSize` holds
exactly when the cloud-reported counts of the listed records lie within
their own bounds — `Refresh` itself neither checks nor clamps. -/
theorem c1_refresh_count_conditional (m : Manager) (inp : RefreshInput) (m2 : Manager)
    (hok : Manager.Refresh m inp = (m2, none))
    (hcounts : ∀ recs, inp.listNodeGroups = .ok recs →
      ∀ r ∈ recs, r.minCount ≤ r.count ∧ r.count ≤ r.maxCount) :
    ∀ g ∈ m2.nodeGroups, g.MinSize ≤ g.TargetSize ∧ g.TargetSize ≤ g.MaxSize := by
  obtain ⟨recs, cid, cluster, hlist, hclu, hb⟩ := refresh_ok_inv m inp m2 hok
  intro g hg
  obtain ⟨r, hr, h1, h2, h3, -, -, -, -⟩ :=
    buildGroups_mem cid cluster.status inp.getNodes recs 0 m2.nodeGroups hb g hg
  have hc := hcounts recs hlist r hr
  unfold NodeGroup.MinSize NodeGroup.MaxSize NodeGroup.TargetSize
  rw [h1, h2, h3]
  exact hc

/-- Witness for C1 (amended): a record with count 3 inside bounds [1, 5]
is published with its count inside the published bounds. -/
theorem c1_refresh_count_conditional_witness :
    c1wGroup.MinSize ≤ c1wGroup.TargetSize ∧ c1wGroup.TargetSize ≤ c1wGroup.MaxSize :=
  c1_refresh_count_conditional { nodeGroups := [] } c1wInput { nodeGroups := [c1wGroup] }
    rfl
    (by
      intro recs hrecs r hr
      simp only [c1wInput, Except.ok.injEq] at hrecs
      subst hrecs
      simp only [List.mem_singleton] at hr
      subst hr
      decide)
    c1wGroup (List.mem_singleton.mpr rfl)

/-- Claim C6: every group published by a successful `Refresh` stems from
a record with role `worker` and `maxCount > minCount`; the published
bounds repeat the record's, so `minSize < maxSize` as well. -/
theorem c6_refresh_eligibility (m : Manager) (inp : RefreshInput) (m2 : Manager)
    (hok : Manager.Refresh m inp = (m2, none)) :
    ∀ g ∈ m2.nodeGroups, g.nodeGroup.role = "worker" ∧
      g.nodeGroup.minCount < g.nodeGroup.maxCount ∧ g.MinSize < g.MaxSize := by
  obtain ⟨recs, cid, cluster, hlist, hclu, hb⟩ := refresh_ok_inv m inp m2 hok
  intro g hg
  obtain ⟨r, hr, h1, h2, h3, hrole, hcnt, -, -⟩ :=
    buildGroups_mem cid cluster.status inp.getNodes recs 0 m2.nodeGroups hb g hg
  unfold NodeGroup.MinSize NodeGroup.MaxSize
  rw [h1, h2, h3]
  exact ⟨hrole, hcnt, hcnt⟩

/-- Witness for C6: the refresh of `c6Input` keeps only the eligible
worker group, and it satisfies the eligibility facts. -/
theorem c6_refresh_eligibility_witness :
    c6Group.nodeGroup.role = "worker" ∧
    c6Group.nodeGroup.minCount < c6Group.nodeGroup.maxCount ∧
    c6Group.MinSize < c6Group.MaxSize :=
  c6_refresh_eligibility { nodeGroups := [] } c6Input { nodeGroups := [c6Group] }
    rfl c6Group (List.mem_singleton.mpr rfl)

/-- Claim C7: the listed failure paths of `Refresh` — label resolution
failure, a non-integer cluster id, a failing gateway call (including the
per-group node fetches when an eligible group exists), and a reconciling
cluster — all make `Refresh` return a non-nil error, and whenever
`Refresh` returns a non-nil error the previously published snapshot is
unchanged. -/
theorem c7_refresh_failure (m : Manager) (inp : RefreshInput) :
    (((∃ e, inp.label = .error e) ∨
      (∀ s, inp.label = .ok s → Atoi s = none) ∨
      (∃ e, inp.listNodeGroups = .error e) ∨
      (∃ e, inp.getCluster = .error e) ∨
      (∀ c, inp.getCluster = .ok c → c.isReconciling = true)) →
      (Manager.Refresh m inp).2.isSome = true) ∧
    ((Manager.Refresh m inp).2.isSome = true → (Manager.Refresh m inp).1 = m) ∧
    (∀ recs, inp.listNodeGroups = .ok recs →
      (∃ r ∈ recs, r.role = "worker" ∧ r.minCount < r.maxCount) →
      (∀ k, ∃ e, inp.getNodes k = .error e) →
      (Manager.Refresh m inp).2.isSome = true) := by
  refine ⟨?_, refresh_err_preserves m inp, ?_⟩
  · intro hd
    unfold Manager.Refresh
    rcases hlab : inp.label with e | s
    · simp
    · rcases hat : Atoi s with - | cid
      · simp [hat]
      · rcases hlist : inp.listNodeGroups with e | recs
        · simp [hat]
        · rcases hclu : inp.getCluster with e | cluster
          · simp [hat]
          · rcases hd with ⟨e2, he⟩ | hat2 | ⟨e2, he⟩ | ⟨e2, he⟩ | hrec
            · rw [hlab] at he; exact absurd he (by simp)
            · have h2 := hat2 s hlab
              rw [hat] at h2
              exact absurd h2 (by simp)
            · rw [hlist] at he; exact absurd he (by simp)
            · rw [hclu] at he; exact absurd he (by simp)
            · have hr := hrec cluster hclu
              simp [hat, hr]
  · intro recs hlist hel hall
    unfold Manager.Refresh
    rcases hlab : inp.label with e | s
    · simp
    · rcases hat : Atoi s with - | cid
      · simp [hat]
      · rcases hclu : inp.getCluster with e | cluster
        · simp [hat, hlist]
        · rcases hrec : cluster.isReconciling with - | -
          · obtain ⟨e2, hb⟩ :=
              buildGroups_err_of_all_err cid cluster.status inp.getNodes hall recs 0 hel
            simp [hat, hlist, hrec, hb]
          · simp [hat, hlist, hrec]

/-- Witness for C7: refreshing against a reconciling cluster errors and
leaves the one-group snapshot `c7Manager` intact. -/
theorem c7_refresh_failure_witness :
    (Manager.Refresh c7Manager c7ReconInput).2.isSome = true ∧
    (Manager.Refresh c7Manager c7ReconInput).1 = c7Manager := by
  have h := c7_refresh_failure c7Manager c7ReconInput
  have h1 := h.1 (Or.inr (Or.inr (Or.inr (Or.inr (by
    intro c hc
    simp only [c7ReconInput, Except.ok.injEq] at hc
    rw [← hc])))))
  exact ⟨h1, h.2.1 h1⟩

/-- Digit characters decode back to their value. -/
theorem digitChar0_val : ∀ k, k < 10 → digitVal? (digitChar0 k) = some k := by
  intro k hk
  interval_cases k <;> decide

/-- A rendered digit decodes to the rendered value. -/
theorem digitVal?_dchar (n : Nat) : digitVal? (dchar n) = some (n % 10) :=
  digitChar0_val (n % 10) (Nat.mod_lt _ (by norm_num))

/-- Digit characters are not the double quote. -/
theorem digitChar0_beq_quote : ∀ k, k < 10 → (digitChar0 k == '"') = false := by
  intro k hk
  interval_cases k <;> decide

/-- A rendered digit is not the double quote. -/
theorem dchar_beq_quote (n : Nat) : (dchar n == '"') = false :=
  digitChar0_beq_quote (n % 10) (Nat.mod_lt _ (by norm_num))

/-- Digit characters differ from the letter opening `null`. -/
theorem digitChar0_ne_n : ∀ k, k < 10 → digitChar0 k ≠ 'n' := by
  intro k hk
  interval_cases k <;> decide

/-- A rendered digit differs from the letter opening `null`. -/
theorem dchar_ne_n (n : Nat) : dchar n ≠ 'n' :=
  digitChar0_ne_n (n % 10) (Nat.mod_lt _ (by norm_num))

/-- Trimming quotes from a quote-wrapped string whose first and last
inner characters are not quotes recovers the inner string. -/
theorem trimQuotes_wrap (a b : Char) (ys : List Char)
    (ha : (a == '"') = false) (hb : (b == '"') = false) :
    trimQuotes (('"' :: (a :: (ys ++ [b]))) ++ ['"']) = a :: (ys ++ [b]) := by
  unfold trimQuotes
  simp only [List.cons_append, List.append_assoc, List.singleton_append]
  rw [List.dropWhile_cons, if_pos (show ('"' == '"') = true from rfl),
    List.dropWhile_cons, if_neg (by simp [ha])]
  simp only [List.reverse_cons, List.reverse_append, List.reverse_nil, List.nil_append,
    List.append_assoc, List.cons_append, List.singleton_append]
  rw [List.dropWhile_cons, if_pos (show ('"' == '"') = true from rfl),
    List.dropWhile_cons, if_neg (by simp [hb])]
  simp [List.reverse_append, List.reverse_cons, List.reverse_reverse]

/-- Months have at most 31 days. -/
theorem daysInMonth_le : ∀ y m, daysInMonth y m ≤ 31 := by
  intro y m
  unfold daysInMonth
  split
  · split <;> norm_num
  · split <;> norm_num

/-- Claim C9: marshaling a second-precision time value representable in
the layout (valid calendar fields, four-digit year) and unmarshaling it
yields the value back, and unmarshaling the input `null` yields the zero
time value. -/
theorem c9_customTime_roundtrip (d : CustomTime) (h : validTime d = true) :
    CustomTime.UnmarshalJSON (CustomTime.MarshalJSON d) = some d ∧
    CustomTime.UnmarshalJSON nullChars = some zeroTime := by
  refine ⟨?_, rfl⟩
  simp only [validTime, Bool.and_eq_true, decide_eq_true_eq] at h
  have hfmt : ctFormat d = dchar (d.year / 1000) ::
      ([dchar (d.year / 100), dchar (d.year / 10), dchar d.year, '-',
        dchar (d.month / 10), dchar d.month, '-',
        dchar (d.day / 10), dchar d.day, 'T',
        dchar (d.hour / 10), dchar d.hour, ':',
        dchar (d.minute / 10), dchar d.minute, ':',
        dchar (d.second / 10)] ++ [dchar d.second]) := rfl
  unfold CustomTime.UnmarshalJSON CustomTime.MarshalJSON
  rw [hfmt, trimQuotes_wrap _ _ _ (dchar_beq_quote _) (dchar_beq_quote _)]
  rw [if_neg (by
    intro hcontra
    simp only [nullChars] at hcontra
    injection hcontra with h1 _
    exact dchar_ne_n _ h1)]
  simp only [List.cons_append, List.nil_append]
  simp only [ctParse, digitVal?_dchar]
  obtain ⟨⟨⟨⟨⟨hy, hmo1, hmo2⟩, hd1, hd2⟩, hh⟩, hmi⟩, hse⟩ := h
  have hd31 : d.day ≤ 31 := hd2.trans (daysInMonth_le _ _)
  have e_y : ((d.year / 1000 % 10 * 10 + d.year / 100 % 10) * 10 + d.year / 10 % 10) * 10 +
      d.year % 10 = d.year := by omega
  have e_mo : d.month / 10 % 10 * 10 + d.month % 10 = d.month := by omega
  have e_d : d.day / 10 % 10 * 10 + d.day % 10 = d.day := by omega
  have e_h : d.hour / 10 % 10 * 10 + d.hour % 10 = d.hour := by omega
  have e_mi : d.minute / 10 % 10 * 10 + d.minute % 10 = d.minute := by omega
  have e_se : d.second / 10 % 10 * 10 + d.second % 10 = d.second := by omega
  rw [e_y, e_mo, e_d, e_h, e_mi, e_se]
  rw [if_pos (show ('-' == '-' && '-' == '-' && 'T' == 'T' && ':' == ':' && ':' == ':') = true
    from rfl)]
  rw [if_pos ⟨hmo1, hmo2, hd1, hd2, hh, hmi, hse⟩]

/-- Witness for C9: the leap-day timestamp 2024-02-29T23:59:59 round
trips, and `null` decodes to the zero time. -/
theorem c9_customTime_roundtrip_witness :
    CustomTime.UnmarshalJSON (CustomTime.MarshalJSON c9Sample) = some c9Sample ∧
    CustomTime.UnmarshalJSON nullChars = some zeroTime :=
  c9_customTime_roundtrip c9Sample (by decide)
